import Mathlib

/-
Verification of the cef-ui bridging layer (crates/cef-ui/src/v8_context.rs and
crates/cef-ui/src/render_process_handler.rs).

The repository wraps a foreign, reference-counted C ABI object model.  The two
source files under verification use a handful of helpers that live elsewhere in
the repository (the ref_counted_ptr and try_c macros, RefCountedPtr, the
Wrappable and Wrapped traits, CefString) and call into the foreign engine
itself.  Those parts are modelled from the specification; every definition that
stands in for such missing code carries a doc comment beginning with
"Modelled from the spec:".  Everything else is a direct shallow embedding of
the Rust source.
-/

set_option autoImplicit false

namespace CefUI

/-- Raw C pointers are modelled as natural numbers; 0 is the NULL pointer. -/
abbrev Ptr := Nat

/-- Modelled from the spec: the string marshalling collaborator (CefString) is
external to the two source files.  Section 6 of the spec describes it as a
foreign UTF-16 owned-string to native string facility whose encoding round
trip is byte for byte faithful, so it is modelled as a wrapper around the
native string. -/
structure CefString where
  data : String
deriving DecidableEq

/-- Modelled from the spec: CefString::new marshals a native string into a
foreign string buffer. -/
def CefString.new (s : String) : CefString := ⟨s⟩

/-- Modelled from the spec: CefString::as_ptr hands out a non owning view of
the foreign buffer for a borrowing foreign call.  Pointer indirection is
flattened, so the view is the buffer itself. -/
def CefString.as_ptr (s : CefString) : CefString := s

/-- Modelled from the spec: CefString::from_ptr_unchecked reads the foreign
string a pointer refers to.  Pointer indirection is flattened. -/
def CefString.from_ptr_unchecked (s : CefString) : CefString := s

/-- Modelled from the spec: CefString::from_userfree_ptr_unchecked takes
ownership of a user free foreign buffer returned by the engine. -/
def CefString.from_userfree_ptr_unchecked (s : CefString) : CefString := s

/-- Modelled from the spec: the Into conversion of CefString back to a native
string, byte for byte. -/
def CefString.into (s : CefString) : String := s.data

/-- Modelled from the spec: the smart pointer generated by ref_counted_ptr.
It references one foreign handle; section 4.1 of the spec gives its contract
(wrap without increment, clone increments, drop decrements, as_ptr is a non
owning view, into_raw extracts the raw handle and suppresses the drop
decrement). -/
structure RefCountedPtr where
  ptr : Ptr
deriving DecidableEq

/-- Modelled from the spec: as_ptr returns a non owning view for passing to
foreign calls that borrow.  No reference count change occurs. -/
def RefCountedPtr.as_ptr (r : RefCountedPtr) : Ptr := r.ptr

/-- Modelled from the spec: into_raw extracts the raw handle and suppresses
the automatic decrement: the wrapper is consumed, so no drop ever runs for it
and ownership of the counted reference moves to the receiver. -/
def RefCountedPtr.into_raw (r : RefCountedPtr) : Ptr := r.ptr

/-- Typed failure result used by the facade.  The try_c macro reports a
missing operation table slot by name (the Rust code uses anyhow errors). -/
inductive CefError
  | missingSlot (slot : String)
deriving DecidableEq

/-- Modelled from the spec: the try_c macro.  It tests whether the operation
table slot is present on this handle instance; if so it runs the body with the
slot function, otherwise it returns a typed error naming the slot.  Absence of
the operation is a reportable error, not a panic. -/
def tryC {α : Type} (present : Bool) (slot : String) (body : Unit → Except CefError α) :
    Except CefError α :=
  if present then body () else .error (.missingSlot slot)

/-- The type tags of the foreign scripting engine value model (spec section 3:
a tagged union where exactly one type predicate is true for a fully
initialized value). -/
inductive V8Tag
  | undefined
  | null
  | bool
  | int
  | uint
  | double
  | date
  | string
  | object
  | array
  | arrayBuffer
  | function
  | promise
deriving DecidableEq

/-- Presence flags for the operation table slots of cef_v8value_t that the
source file uses.  Each function pointer slot of the foreign table is
nullable; true means the slot is populated on this handle instance. -/
structure V8ValueSlots where
  (is_valid is_undefined is_null is_bool is_int is_uint is_double is_date : Bool)
  (is_string is_object is_array is_array_buffer is_function is_promise is_same : Bool)
  (get_bool_value get_int_value get_uint_value get_double_value get_string_value : Bool)
  (is_user_created has_exception clear_exception : Bool)
  (will_rethrow_exceptions set_rethrow_exceptions : Bool)
  (has_value_bykey has_value_byindex delete_value_bykey delete_value_byindex : Bool)
  (get_value_bykey get_value_byindex set_value_bykey set_value_byindex : Bool)

/-- A V8ValueSlots record with every slot in the same state. -/
def V8ValueSlots.const (b : Bool) : V8ValueSlots :=
  ⟨b, b, b, b, b, b, b, b, b, b, b, b, b, b, b, b, b,
   b, b, b, b, b, b, b, b, b, b, b, b, b, b, b, b⟩

/-- The property attribute enumeration from the foreign ABI; the source always
passes V8_PROPERTY_ATTRIBUTE_NONE. -/
inductive cef_v8_propertyattribute_t
  | V8_PROPERTY_ATTRIBUTE_NONE
  | V8_PROPERTY_ATTRIBUTE_READONLY
  | V8_PROPERTY_ATTRIBUTE_DONTENUM
  | V8_PROPERTY_ATTRIBUTE_DONTDELETE
deriving DecidableEq

/-- Modelled from the spec: the foreign record behind a cef_v8value_t handle.
The spec excludes the scripting runtime itself, so the record keeps the
reference count, the type tag with its payloads (enough for the bridging
contract), the slot presence table, and result oracles for the object
operations whose semantics belong to the excluded runtime.  The double payload
is kept as a raw bit pattern because no claim touches float semantics. -/
structure V8ValueRec where
  refcount : Nat
  valid : Bool
  tag : V8Tag
  boolValue : Bool
  intValue : Int
  uintValue : Nat
  doubleBits : Nat
  strValue : String
  userCreated : Bool
  hasExc : Bool
  clearExcResult : Int
  willRethrow : Bool
  setRethrowResult : Int → Int
  hasKey : String → Int
  hasIndex : Int → Int
  deleteKey : String → Int
  deleteIndex : Int → Int
  getKey : String → Ptr
  getIndex : Int → Ptr
  setKey : String → Ptr → cef_v8_propertyattribute_t → Int
  setIndex : Int → Ptr → Int
  slots : V8ValueSlots

/-- The record a dereference of an invalid pointer yields; dereferencing NULL
is undefined behaviour on the foreign side, modelled by an inert record. -/
def V8ValueRec.junk : V8ValueRec :=
  { refcount := 0, valid := false, tag := .undefined, boolValue := false,
    intValue := 0, uintValue := 0, doubleBits := 0, strValue := "",
    userCreated := false, hasExc := false, clearExcResult := 0,
    willRethrow := false, setRethrowResult := fun _ => 0,
    hasKey := fun _ => 0, hasIndex := fun _ => 0,
    deleteKey := fun _ => 0, deleteIndex := fun _ => 0,
    getKey := fun _ => 0, getIndex := fun _ => 0,
    setKey := fun _ _ _ => 0, setIndex := fun _ _ => 0,
    slots := V8ValueSlots.const false }

/-- Replace the element at an index of a list, leaving other positions and the
length unchanged. -/
def modifyAt {α : Type} (f : α → α) : List α → Nat → List α
  | [], _ => []
  | x :: t, 0 => f x :: t
  | x :: t, n + 1 => x :: modifyAt f t n

/-- The foreign heap of cef_v8value_t records; pointer p, when nonzero, refers
to the cell at position p - 1. -/
structure V8Heap where
  cells : List V8ValueRec

/-- Dereference a cef_v8value_t pointer in the foreign heap. -/
def V8Heap.deref (h : V8Heap) (p : Ptr) : V8ValueRec :=
  ((h.cells.get? (p - 1)).getD V8ValueRec.junk)

/-- Modelled from the spec: allocation of a fresh foreign record by the
engine, returning the heap extension and the new nonzero pointer. -/
def V8Heap.alloc (h : V8Heap) (r : V8ValueRec) : V8Heap × Ptr :=
  (⟨h.cells ++ [r]⟩, h.cells.length + 1)

/-- Modelled from the spec: the foreign atomic decrement invoked when a smart
pointer holding this handle is dropped. -/
def V8Heap.release (h : V8Heap) (p : Ptr) : V8Heap :=
  ⟨modifyAt (fun r => { r with refcount := r.refcount - 1 }) h.cells (p - 1)⟩

/-- Reference count of the handle a pointer refers to. -/
def V8Heap.refcountAt (h : V8Heap) (p : Ptr) : Nat := (h.deref p).refcount

/-- The V8Value facade type generated by ref_counted_ptr!(V8Value,
cef_v8value_t): a newtype around the smart pointer. -/
structure V8Value where
  rc : RefCountedPtr
deriving DecidableEq

/-- Raw pointer view of the wrapped handle (macro generated delegation). -/
def V8Value.as_ptr (v : V8Value) : Ptr := v.rc.as_ptr

/-- Modelled from the spec: the unchecked constructor generated by
ref_counted_ptr.  It claims ownership of an already counted raw handle without
incrementing and, unlike the checked from_ptr variant, performs no NULL test on
the incoming pointer. -/
def V8Value.from_ptr_unchecked (p : Ptr) : V8Value := ⟨⟨p⟩⟩

/- Foreign slot implementations for cef_v8value_t.  The engine itself is out
of scope, so these are modelled from the spec: type predicates read the tag of
the tagged union, payload getters return the stored payload, identity
comparison compares handles, and object property operations answer from the
oracles of the record. -/

/-- Modelled from the spec: foreign is_valid slot. -/
def cef_v8value_is_valid (h : V8Heap) (p : Ptr) : Int :=
  if (h.deref p).valid then 1 else 0

/-- Modelled from the spec: foreign type predicate slots read the tag. -/
def cef_v8value_has_tag (h : V8Heap) (p : Ptr) (t : V8Tag) : Int :=
  if (h.deref p).tag = t then 1 else 0

/-- Modelled from the spec: foreign identity query compares handles. -/
def cef_v8value_is_same (_h : V8Heap) (p q : Ptr) : Int :=
  if p = q then 1 else 0

/-- Modelled from the spec: foreign get_bool_value slot. -/
def cef_v8value_get_bool_value (h : V8Heap) (p : Ptr) : Int :=
  if (h.deref p).boolValue then 1 else 0

/-- Modelled from the spec: foreign get_int_value slot. -/
def cef_v8value_get_int_value (h : V8Heap) (p : Ptr) : Int :=
  (h.deref p).intValue

/-- Modelled from the spec: foreign get_uint_value slot. -/
def cef_v8value_get_uint_value (h : V8Heap) (p : Ptr) : Nat :=
  (h.deref p).uintValue

/-- Modelled from the spec: foreign get_double_value slot, kept as the raw bit
pattern of the returned double. -/
def cef_v8value_get_double_value (h : V8Heap) (p : Ptr) : Nat :=
  (h.deref p).doubleBits

/-- Modelled from the spec: foreign get_string_value slot returns a user free
string buffer. -/
def cef_v8value_get_string_value (h : V8Heap) (p : Ptr) : CefString :=
  ⟨(h.deref p).strValue⟩

/-- Modelled from the spec: foreign is_user_created slot. -/
def cef_v8value_is_user_created (h : V8Heap) (p : Ptr) : Int :=
  if (h.deref p).userCreated then 1 else 0

/-- Modelled from the spec: foreign has_exception slot. -/
def cef_v8value_has_exception (h : V8Heap) (p : Ptr) : Int :=
  if (h.deref p).hasExc then 1 else 0

/-- Modelled from the spec: foreign clear_exception slot result. -/
def cef_v8value_clear_exception (h : V8Heap) (p : Ptr) : Int :=
  (h.deref p).clearExcResult

/-- Modelled from the spec: foreign will_rethrow_exceptions slot. -/
def cef_v8value_will_rethrow_exceptions (h : V8Heap) (p : Ptr) : Int :=
  if (h.deref p).willRethrow then 1 else 0

/-- Modelled from the spec: foreign set_rethrow_exceptions slot result. -/
def cef_v8value_set_rethrow_exceptions (h : V8Heap) (p : Ptr) (rethrow : Int) : Int :=
  (h.deref p).setRethrowResult rethrow

/-- Modelled from the spec: foreign has_value_bykey slot result. -/
def cef_v8value_has_value_bykey (h : V8Heap) (p : Ptr) (key : CefString) : Int :=
  (h.deref p).hasKey key.data

/-- Modelled from the spec: foreign has_value_byindex slot result. -/
def cef_v8value_has_value_byindex (h : V8Heap) (p : Ptr) (index : Int) : Int :=
  (h.deref p).hasIndex index

/-- Modelled from the spec: foreign delete_value_bykey slot result. -/
def cef_v8value_delete_value_bykey (h : V8Heap) (p : Ptr) (key : CefString) : Int :=
  (h.deref p).deleteKey key.data

/-- Modelled from the spec: foreign delete_value_byindex slot result. -/
def cef_v8value_delete_value_byindex (h : V8Heap) (p : Ptr) (index : Int) : Int :=
  (h.deref p).deleteIndex index

/-- Modelled from the spec: foreign get_value_bykey slot result, a pointer
that is NULL when the operation fails. -/
def cef_v8value_get_value_bykey (h : V8Heap) (p : Ptr) (key : CefString) : Ptr :=
  (h.deref p).getKey key.data

/-- Modelled from the spec: foreign get_value_byindex slot result, a pointer
that is NULL when the operation fails. -/
def cef_v8value_get_value_byindex (h : V8Heap) (p : Ptr) (index : Int) : Ptr :=
  (h.deref p).getIndex index

/-- Modelled from the spec: foreign set_value_bykey slot result.  The raw
value pointer is handed over with ownership (the caller passed into_raw). -/
def cef_v8value_set_value_bykey (h : V8Heap) (p : Ptr) (key : CefString) (value : Ptr)
    (attr : cef_v8_propertyattribute_t) : Int :=
  (h.deref p).setKey key.data value attr

/-- Modelled from the spec: foreign set_value_byindex slot result. -/
def cef_v8value_set_value_byindex (h : V8Heap) (p : Ptr) (index : Int) (value : Ptr) : Int :=
  (h.deref p).setIndex index value

/- Embeddings of the V8Value facade methods of v8_context.rs.  Each method
expands the try_c macro: the slot presence of the handle instance is tested
first; the body then calls the slot function with a borrowed view of the
handle (self.as_ptr) and translates the result. -/

/-- V8Value::is_valid from v8_context.rs. -/
def V8Value.is_valid (h : V8Heap) (self : V8Value) : Except CefError Bool :=
  tryC (h.deref self.as_ptr).slots.is_valid "is_valid" fun _ =>
    .ok (cef_v8value_is_valid h self.as_ptr != 0)

/-- V8Value::is_undefined from v8_context.rs. -/
def V8Value.is_undefined (h : V8Heap) (self : V8Value) : Except CefError Bool :=
  tryC (h.deref self.as_ptr).slots.is_undefined "is_undefined" fun _ =>
    .ok (cef_v8value_has_tag h self.as_ptr .undefined != 0)

/-- V8Value::is_null from v8_context.rs. -/
def V8Value.is_null (h : V8Heap) (self : V8Value) : Except CefError Bool :=
  tryC (h.deref self.as_ptr).slots.is_null "is_null" fun _ =>
    .ok (cef_v8value_has_tag h self.as_ptr .null != 0)

/-- V8Value::is_bool from v8_context.rs. -/
def V8Value.is_bool (h : V8Heap) (self : V8Value) : Except CefError Bool :=
  tryC (h.deref self.as_ptr).slots.is_bool "is_bool" fun _ =>
    .ok (cef_v8value_has_tag h self.as_ptr .bool != 0)

/-- V8Value::is_int from v8_context.rs. -/
def V8Value.is_int (h : V8Heap) (self : V8Value) : Except CefError Bool :=
  tryC (h.deref self.as_ptr).slots.is_int "is_int" fun _ =>
    .ok (cef_v8value_has_tag h self.as_ptr .int != 0)

/-- V8Value::is_uint from v8_context.rs. -/
def V8Value.is_uint (h : V8Heap) (self : V8Value) : Except CefError Bool :=
  tryC (h.deref self.as_ptr).slots.is_uint "is_uint" fun _ =>
    .ok (cef_v8value_has_tag h self.as_ptr .uint != 0)

/-- V8Value::is_double from v8_context.rs. -/
def V8Value.is_double (h : V8Heap) (self : V8Value) : Except CefError Bool :=
  tryC (h.deref self.as_ptr).slots.is_double "is_double" fun _ =>
    .ok (cef_v8value_has_tag h self.as_ptr .double != 0)

/-- V8Value::is_date from v8_context.rs. -/
def V8Value.is_date (h : V8Heap) (self : V8Value) : Except CefError Bool :=
  tryC (h.deref self.as_ptr).slots.is_date "is_date" fun _ =>
    .ok (cef_v8value_has_tag h self.as_ptr .date != 0)

/-- V8Value::is_string from v8_context.rs. -/
def V8Value.is_string (h : V8Heap) (self : V8Value) : Except CefError Bool :=
  tryC (h.deref self.as_ptr).slots.is_string "is_string" fun _ =>
    .ok (cef_v8value_has_tag h self.as_ptr .string != 0)

/-- V8Value::is_object from v8_context.rs. -/
def V8Value.is_object (h : V8Heap) (self : V8Value) : Except CefError Bool :=
  tryC (h.deref self.as_ptr).slots.is_object "is_object" fun _ =>
    .ok (cef_v8value_has_tag h self.as_ptr .object != 0)

/-- V8Value::is_array from v8_context.rs. -/
def V8Value.is_array (h : V8Heap) (self : V8Value) : Except CefError Bool :=
  tryC (h.deref self.as_ptr).slots.is_array "is_array" fun _ =>
    .ok (cef_v8value_has_tag h self.as_ptr .array != 0)

/-- V8Value::is_array_buffer from v8_context.rs. -/
def V8Value.is_array_buffer (h : V8Heap) (self : V8Value) : Except CefError Bool :=
  tryC (h.deref self.as_ptr).slots.is_array_buffer "is_array_buffer" fun _ =>
    .ok (cef_v8value_has_tag h self.as_ptr .arrayBuffer != 0)

/-- V8Value::is_function from v8_context.rs. -/
def V8Value.is_function (h : V8Heap) (self : V8Value) : Except CefError Bool :=
  tryC (h.deref self.as_ptr).slots.is_function "is_function" fun _ =>
    .ok (cef_v8value_has_tag h self.as_ptr .function != 0)

/-- V8Value::is_promise from v8_context.rs. -/
def V8Value.is_promise (h : V8Heap) (self : V8Value) : Except CefError Bool :=
  tryC (h.deref self.as_ptr).slots.is_promise "is_promise" fun _ =>
    .ok (cef_v8value_has_tag h self.as_ptr .promise != 0)

/-- V8Value::is_same from v8_context.rs.  The comparison argument is received
by reference and passed on with as_ptr, a non owning view: the call performs
no reference count operation on it and the caller keeps its binding. -/
def V8Value.is_same (h : V8Heap) (self : V8Value) (that : V8Value) : Except CefError Bool :=
  tryC (h.deref self.as_ptr).slots.is_same "is_same" fun _ =>
    .ok (cef_v8value_is_same h self.as_ptr that.as_ptr != 0)

/-- V8Value::get_bool_value from v8_context.rs. -/
def V8Value.get_bool_value (h : V8Heap) (self : V8Value) : Except CefError Bool :=
  tryC (h.deref self.as_ptr).slots.get_bool_value "get_bool_value" fun _ =>
    .ok (cef_v8value_get_bool_value h self.as_ptr != 0)

/-- V8Value::get_int_value from v8_context.rs. -/
def V8Value.get_int_value (h : V8Heap) (self : V8Value) : Except CefError Int :=
  tryC (h.deref self.as_ptr).slots.get_int_value "get_int_value" fun _ =>
    .ok (cef_v8value_get_int_value h self.as_ptr)

/-- V8Value::get_uint_value from v8_context.rs. -/
def V8Value.get_uint_value (h : V8Heap) (self : V8Value) : Except CefError Nat :=
  tryC (h.deref self.as_ptr).slots.get_uint_value "get_uint_value" fun _ =>
    .ok (cef_v8value_get_uint_value h self.as_ptr)

/-- V8Value::get_double_value from v8_context.rs (payload as raw bits). -/
def V8Value.get_double_value (h : V8Heap) (self : V8Value) : Except CefError Nat :=
  tryC (h.deref self.as_ptr).slots.get_double_value "get_double_value" fun _ =>
    .ok (cef_v8value_get_double_value h self.as_ptr)

/-- V8Value::get_string_value from v8_context.rs. -/
def V8Value.get_string_value (h : V8Heap) (self : V8Value) : Except CefError String :=
  tryC (h.deref self.as_ptr).slots.get_string_value "get_string_value" fun _ =>
    .ok ((CefString.from_userfree_ptr_unchecked
      (cef_v8value_get_string_value h self.as_ptr)).into)

/-- V8Value::is_user_created from v8_context.rs. -/
def V8Value.is_user_created (h : V8Heap) (self : V8Value) : Except CefError Bool :=
  tryC (h.deref self.as_ptr).slots.is_user_created "is_user_created" fun _ =>
    .ok (cef_v8value_is_user_created h self.as_ptr != 0)

/-- V8Value::has_exception from v8_context.rs. -/
def V8Value.has_exception (h : V8Heap) (self : V8Value) : Except CefError Bool :=
  tryC (h.deref self.as_ptr).slots.has_exception "has_exception" fun _ =>
    .ok (cef_v8value_has_exception h self.as_ptr != 0)

/-- V8Value::clear_exception from v8_context.rs. -/
def V8Value.clear_exception (h : V8Heap) (self : V8Value) : Except CefError Bool :=
  tryC (h.deref self.as_ptr).slots.clear_exception "clear_exception" fun _ =>
    .ok (cef_v8value_clear_exception h self.as_ptr != 0)

/-- V8Value::will_rethrow_exceptions from v8_context.rs. -/
def V8Value.will_rethrow_exceptions (h : V8Heap) (self : V8Value) : Except CefError Bool :=
  tryC (h.deref self.as_ptr).slots.will_rethrow_exceptions "will_rethrow_exceptions" fun _ =>
    .ok (cef_v8value_will_rethrow_exceptions h self.as_ptr != 0)

/-- V8Value::set_rethrow_exceptions from v8_context.rs (rethrow as i32). -/
def V8Value.set_rethrow_exceptions (h : V8Heap) (self : V8Value) (rethrow : Bool) :
    Except CefError Bool :=
  tryC (h.deref self.as_ptr).slots.set_rethrow_exceptions "set_rethrow_exceptions" fun _ =>
    .ok (cef_v8value_set_rethrow_exceptions h self.as_ptr (if rethrow then 1 else 0) != 0)

/-- V8Value::has_value_by_key from v8_context.rs. -/
def V8Value.has_value_by_key (h : V8Heap) (self : V8Value) (key : String) :
    Except CefError Bool :=
  tryC (h.deref self.as_ptr).slots.has_value_bykey "has_value_bykey" fun _ =>
    .ok (cef_v8value_has_value_bykey h self.as_ptr (CefString.new key).as_ptr != 0)

/-- V8Value::has_value_by_index from v8_context.rs. -/
def V8Value.has_value_by_index (h : V8Heap) (self : V8Value) (index : Int) :
    Except CefError Bool :=
  tryC (h.deref self.as_ptr).slots.has_value_byindex "has_value_byindex" fun _ =>
    .ok (cef_v8value_has_value_byindex h self.as_ptr index != 0)

/-- V8Value::delete_value_by_key from v8_context.rs. -/
def V8Value.delete_value_by_key (h : V8Heap) (self : V8Value) (key : String) :
    Except CefError Bool :=
  tryC (h.deref self.as_ptr).slots.delete_value_bykey "delete_value_bykey" fun _ =>
    .ok (cef_v8value_delete_value_bykey h self.as_ptr (CefString.new key).as_ptr != 0)

/-- V8Value::delete_value_by_index from v8_context.rs. -/
def V8Value.delete_value_by_index (h : V8Heap) (self : V8Value) (index : Int) :
    Except CefError Bool :=
  tryC (h.deref self.as_ptr).slots.delete_value_byindex "delete_value_byindex" fun _ =>
    .ok (cef_v8value_delete_value_byindex h self.as_ptr index != 0)

/-- V8Value::get_value_by_key from v8_context.rs.  The foreign pointer result
is wrapped with from_ptr_unchecked, with no NULL test. -/
def V8Value.get_value_by_key (h : V8Heap) (self : V8Value) (key : String) :
    Except CefError V8Value :=
  tryC (h.deref self.as_ptr).slots.get_value_bykey "get_value_bykey" fun _ =>
    .ok (V8Value.from_ptr_unchecked
      (cef_v8value_get_value_bykey h self.as_ptr (CefString.new key).as_ptr))

/-- V8Value::get_value_by_index from v8_context.rs.  The foreign pointer
result is wrapped with from_ptr_unchecked, with no NULL test. -/
def V8Value.get_value_by_index (h : V8Heap) (self : V8Value) (index : Int) :
    Except CefError V8Value :=
  tryC (h.deref self.as_ptr).slots.get_value_byindex "get_value_byindex" fun _ =>
    .ok (V8Value.from_ptr_unchecked
      (cef_v8value_get_value_byindex h self.as_ptr index))

/-- V8Value::set_value_by_key from v8_context.rs.  The assigned value is
consumed and its raw handle handed over with into_raw (ownership transfer). -/
def V8Value.set_value_by_key (h : V8Heap) (self : V8Value) (key : String) (value : V8Value) :
    Except CefError Bool :=
  tryC (h.deref self.as_ptr).slots.set_value_bykey "set_value_bykey" fun _ =>
    .ok (cef_v8value_set_value_bykey h self.as_ptr (CefString.new key).as_ptr
      value.rc.into_raw .V8_PROPERTY_ATTRIBUTE_NONE != 0)

/-- V8Value::set_value_by_index from v8_context.rs.  The assigned value is
consumed and its raw handle handed over with into_raw (ownership transfer). -/
def V8Value.set_value_by_index (h : V8Heap) (self : V8Value) (index : Int) (value : V8Value) :
    Except CefError Bool :=
  tryC (h.deref self.as_ptr).slots.set_value_byindex "set_value_byindex" fun _ =>
    .ok (cef_v8value_set_value_byindex h self.as_ptr index value.rc.into_raw != 0)

/-- Modelled from the spec: a freshly engine created value record of the given
tag and payloads.  Engine created values are valid, carry one reference for
the creator and a fully populated operation table. -/
def freshEngineRec (tag : V8Tag) (i : Int) (s : String) : V8ValueRec :=
  { refcount := 1, valid := true, tag := tag, boolValue := false,
    intValue := i, uintValue := 0, doubleBits := 0, strValue := s,
    userCreated := false, hasExc := false, clearExcResult := 1,
    willRethrow := false, setRethrowResult := fun _ => 1,
    hasKey := fun _ => 0, hasIndex := fun _ => 0,
    deleteKey := fun _ => 1, deleteIndex := fun _ => 1,
    getKey := fun _ => 0, getIndex := fun _ => 0,
    setKey := fun _ _ _ => 1, setIndex := fun _ _ => 1,
    slots := V8ValueSlots.const true }

/-- Modelled from the spec: the foreign export cef_v8value_create_int creates
a new cef_v8value_t object of type int with the given payload. -/
def cef_v8value_create_int (h : V8Heap) (i : Int) : V8Heap × Ptr :=
  h.alloc (freshEngineRec .int i "")

/-- Modelled from the spec: the foreign export cef_v8value_create_string
creates a new cef_v8value_t object of type string with the given payload. -/
def cef_v8value_create_string (h : V8Heap) (s : CefString) : V8Heap × Ptr :=
  h.alloc (freshEngineRec .string 0 s.data)

/-- V8Value::create_int from v8_context.rs: wraps the foreign creation result
with from_ptr_unchecked. -/
def V8Value.create_int (h : V8Heap) (i : Int) : V8Heap × V8Value :=
  let call := cef_v8value_create_int h i
  (call.1, V8Value.from_ptr_unchecked call.2)

/-- V8Value::create_string from v8_context.rs: wraps the foreign creation
result with from_ptr_unchecked. -/
def V8Value.create_string (h : V8Heap) (s : CefString) : V8Heap × V8Value :=
  let call := cef_v8value_create_string h s.as_ptr
  (call.1, V8Value.from_ptr_unchecked call.2)

/-- Names of the V8Value facade accessors, used to quantify over the whole
accessor family. -/
inductive V8ValueOp
  | is_valid | is_undefined | is_null | is_bool | is_int | is_uint | is_double
  | is_date | is_string | is_object | is_array | is_array_buffer | is_function
  | is_promise | is_same | get_bool_value | get_int_value | get_uint_value
  | get_double_value | get_string_value | is_user_created | has_exception
  | clear_exception | will_rethrow_exceptions | set_rethrow_exceptions
  | has_value_by_key | has_value_by_index | delete_value_by_key
  | delete_value_by_index | get_value_by_key | get_value_by_index
  | set_value_by_key | set_value_by_index
deriving DecidableEq

/-- The operation table slot an accessor forwards to. -/
def V8ValueOp.slotOf (op : V8ValueOp) (s : V8ValueSlots) : Bool :=
  match op with
  | .is_valid => s.is_valid
  | .is_undefined => s.is_undefined
  | .is_null => s.is_null
  | .is_bool => s.is_bool
  | .is_int => s.is_int
  | .is_uint => s.is_uint
  | .is_double => s.is_double
  | .is_date => s.is_date
  | .is_string => s.is_string
  | .is_object => s.is_object
  | .is_array => s.is_array
  | .is_array_buffer => s.is_array_buffer
  | .is_function => s.is_function
  | .is_promise => s.is_promise
  | .is_same => s.is_same
  | .get_bool_value => s.get_bool_value
  | .get_int_value => s.get_int_value
  | .get_uint_value => s.get_uint_value
  | .get_double_value => s.get_double_value
  | .get_string_value => s.get_string_value
  | .is_user_created => s.is_user_created
  | .has_exception => s.has_exception
  | .clear_exception => s.clear_exception
  | .will_rethrow_exceptions => s.will_rethrow_exceptions
  | .set_rethrow_exceptions => s.set_rethrow_exceptions
  | .has_value_by_key => s.has_value_bykey
  | .has_value_by_index => s.has_value_byindex
  | .delete_value_by_key => s.delete_value_bykey
  | .delete_value_by_index => s.delete_value_byindex
  | .get_value_by_key => s.get_value_bykey
  | .get_value_by_index => s.get_value_byindex
  | .set_value_by_key => s.set_value_bykey
  | .set_value_by_index => s.set_value_byindex

/-- The slot name the try_c expansion of an accessor reports on absence. -/
def V8ValueOp.opName (op : V8ValueOp) : String :=
  match op with
  | .is_valid => "is_valid"
  | .is_undefined => "is_undefined"
  | .is_null => "is_null"
  | .is_bool => "is_bool"
  | .is_int => "is_int"
  | .is_uint => "is_uint"
  | .is_double => "is_double"
  | .is_date => "is_date"
  | .is_string => "is_string"
  | .is_object => "is_object"
  | .is_array => "is_array"
  | .is_array_buffer => "is_array_buffer"
  | .is_function => "is_function"
  | .is_promise => "is_promise"
  | .is_same => "is_same"
  | .get_bool_value => "get_bool_value"
  | .get_int_value => "get_int_value"
  | .get_uint_value => "get_uint_value"
  | .get_double_value => "get_double_value"
  | .get_string_value => "get_string_value"
  | .is_user_created => "is_user_created"
  | .has_exception => "has_exception"
  | .clear_exception => "clear_exception"
  | .will_rethrow_exceptions => "will_rethrow_exceptions"
  | .set_rethrow_exceptions => "set_rethrow_exceptions"
  | .has_value_by_key => "has_value_bykey"
  | .has_value_by_index => "has_value_byindex"
  | .delete_value_by_key => "delete_value_bykey"
  | .delete_value_by_index => "delete_value_byindex"
  | .get_value_by_key => "get_value_bykey"
  | .get_value_by_index => "get_value_byindex"
  | .set_value_by_key => "set_value_bykey"
  | .set_value_by_index => "set_value_byindex"

/-- Common result type for dispatching over the accessor family (the facade
accessors return Bool, Int, Nat, String or a wrapped value). -/
inductive CefAnswer
  | b (v : Bool)
  | i (v : Int)
  | n (v : Nat)
  | s (v : String)
  | val (v : V8Value)
deriving DecidableEq

/-- Invoke one facade accessor by name on a handle, with generic arguments for
the key, index, assigned value and rethrow flag parameters. -/
def V8Value.callOp (h : V8Heap) (v : V8Value) (op : V8ValueOp) (key : String) (index : Int)
    (arg : V8Value) (rethrow : Bool) : Except CefError CefAnswer :=
  match op with
  | .is_valid => (V8Value.is_valid h v).map .b
  | .is_undefined => (V8Value.is_undefined h v).map .b
  | .is_null => (V8Value.is_null h v).map .b
  | .is_bool => (V8Value.is_bool h v).map .b
  | .is_int => (V8Value.is_int h v).map .b
  | .is_uint => (V8Value.is_uint h v).map .b
  | .is_double => (V8Value.is_double h v).map .b
  | .is_date => (V8Value.is_date h v).map .b
  | .is_string => (V8Value.is_string h v).map .b
  | .is_object => (V8Value.is_object h v).map .b
  | .is_array => (V8Value.is_array h v).map .b
  | .is_array_buffer => (V8Value.is_array_buffer h v).map .b
  | .is_function => (V8Value.is_function h v).map .b
  | .is_promise => (V8Value.is_promise h v).map .b
  | .is_same => (V8Value.is_same h v arg).map .b
  | .get_bool_value => (V8Value.get_bool_value h v).map .b
  | .get_int_value => (V8Value.get_int_value h v).map .i
  | .get_uint_value => (V8Value.get_uint_value h v).map .n
  | .get_double_value => (V8Value.get_double_value h v).map .n
  | .get_string_value => (V8Value.get_string_value h v).map .s
  | .is_user_created => (V8Value.is_user_created h v).map .b
  | .has_exception => (V8Value.has_exception h v).map .b
  | .clear_exception => (V8Value.clear_exception h v).map .b
  | .will_rethrow_exceptions => (V8Value.will_rethrow_exceptions h v).map .b
  | .set_rethrow_exceptions => (V8Value.set_rethrow_exceptions h v rethrow).map .b
  | .has_value_by_key => (V8Value.has_value_by_key h v key).map .b
  | .has_value_by_index => (V8Value.has_value_by_index h v index).map .b
  | .delete_value_by_key => (V8Value.delete_value_by_key h v key).map .b
  | .delete_value_by_index => (V8Value.delete_value_by_index h v index).map .b
  | .get_value_by_key => (V8Value.get_value_by_key h v key).map .val
  | .get_value_by_index => (V8Value.get_value_by_index h v index).map .val
  | .set_value_by_key => (V8Value.set_value_by_key h v key arg).map .b
  | .set_value_by_index => (V8Value.set_value_by_index h v index arg).map .b

/- The V8Context model.  A context handle has its own foreign record (with a
reference count and its slot table) and the engine keeps one global context
stack whose depth the enter and exit slots manipulate. -/

/-- Presence flags for the cef_v8context_t operation table slots the embedded
methods use. -/
structure V8ContextSlots where
  (enter exit is_same : Bool)
deriving DecidableEq

/-- Modelled from the spec: the foreign record behind a cef_v8context_t
handle (reference count plus slot presence). -/
structure V8ContextRec where
  refcount : Nat
  slots : V8ContextSlots
deriving DecidableEq

/-- The inert record an invalid context pointer dereferences to. -/
def V8ContextRec.junk : V8ContextRec := ⟨0, ⟨false, false, false⟩⟩

/-- Dereference a cef_v8context_t pointer in a foreign context heap. -/
def ctxDeref (cells : List V8ContextRec) (p : Ptr) : V8ContextRec :=
  (cells.get? (p - 1)).getD V8ContextRec.junk

/-- Modelled from the spec: the foreign engine state relevant to contexts, a
heap of context records and the depth of the global context stack. -/
structure V8CtxWorld where
  heap : List V8ContextRec
  stackDepth : Nat
deriving DecidableEq

/-- Dereference a context pointer in the world. -/
def V8CtxWorld.deref (w : V8CtxWorld) (p : Ptr) : V8ContextRec := ctxDeref w.heap p

/-- Modelled from the spec: the foreign atomic decrement invoked when a smart
pointer holding this context handle is dropped. -/
def V8CtxWorld.release (w : V8CtxWorld) (p : Ptr) : V8CtxWorld :=
  ⟨modifyAt (fun r => { r with refcount := r.refcount - 1 }) w.heap (p - 1), w.stackDepth⟩

/-- Reference count of the context handle a pointer refers to. -/
def V8CtxWorld.refcountAt (w : V8CtxWorld) (p : Ptr) : Nat := (w.deref p).refcount

/-- Modelled from the spec: the foreign enter slot pushes onto the context
stack and returns 1 on success. -/
def cef_v8context_enter (w : V8CtxWorld) (_p : Ptr) : Int × V8CtxWorld :=
  (1, { w with stackDepth := w.stackDepth + 1 })

/-- Modelled from the spec: the foreign exit slot pops the context stack and
returns 1; exiting with no outstanding enter fails, returning 0 and leaving
the stack untouched. -/
def cef_v8context_exit (w : V8CtxWorld) (_p : Ptr) : Int × V8CtxWorld :=
  if w.stackDepth = 0 then (0, w)
  else (1, { w with stackDepth := w.stackDepth - 1 })

/-- Modelled from the spec: the foreign context identity query compares
handles and borrows both arguments. -/
def cef_v8context_is_same (_w : V8CtxWorld) (p q : Ptr) : Int :=
  if p = q then 1 else 0

/-- The V8Context facade type generated by ref_counted_ptr!(V8Context,
cef_v8context_t). -/
structure V8Context where
  rc : RefCountedPtr
deriving DecidableEq

/-- Raw pointer view of the wrapped context handle. -/
def V8Context.as_ptr (c : V8Context) : Ptr := c.rc.as_ptr

/-- Modelled from the spec: the unchecked constructor generated by
ref_counted_ptr for V8Context (no NULL test). -/
def V8Context.from_ptr_unchecked (p : Ptr) : V8Context := ⟨⟨p⟩⟩

/-- V8Context::enter from v8_context.rs (try_c expansion around the foreign
enter slot, called with a borrowed view of self). -/
def V8Context.enter (w : V8CtxWorld) (self : V8Context) : Except CefError Int × V8CtxWorld :=
  if (w.deref self.as_ptr).slots.enter then
    let call := cef_v8context_enter w self.as_ptr
    (.ok call.1, call.2)
  else (.error (.missingSlot "enter"), w)

/-- V8Context::exit from v8_context.rs (try_c expansion around the foreign
exit slot, called with a borrowed view of self). -/
def V8Context.exit (w : V8CtxWorld) (self : V8Context) : Except CefError Int × V8CtxWorld :=
  if (w.deref self.as_ptr).slots.exit then
    let call := cef_v8context_exit w self.as_ptr
    (.ok call.1, call.2)
  else (.error (.missingSlot "exit"), w)

/-- V8Context::is_same from v8_context.rs.  Unlike V8Value::is_same, the
comparison argument is taken by value and passed with into_raw, so inside the
try_c body its counted reference is never released (the wrapper is consumed
and its drop suppressed).  When the slot is absent the body never runs, the
moved argument reaches the end of the method scope and its drop releases the
reference as usual. -/
def V8Context.is_same (w : V8CtxWorld) (self : V8Context) (that : V8Context) :
    Except CefError Bool × V8CtxWorld :=
  if (w.deref self.as_ptr).slots.is_same then
    (.ok (cef_v8context_is_same w self.as_ptr that.rc.into_raw != 0), w)
  else (.error (.missingSlot "is_same"), w.release that.as_ptr)

/-- Iterate V8Context::enter n times, threading the engine state. -/
def enterN : Nat → V8CtxWorld → V8Context → V8CtxWorld
  | 0, w, _ => w
  | n + 1, w, c => enterN n (V8Context.enter w c).2 c

/-- Iterate V8Context::exit n times, threading the engine state. -/
def exitN : Nat → V8CtxWorld → V8Context → V8CtxWorld
  | 0, w, _ => w
  | n + 1, w, c => exitN n (V8Context.exit w c).2 c

/-- The instrumented lifecycle of the comparison argument in
V8Value::is_same: the call borrows the argument (heap untouched, the result is
the first component) and afterwards the caller drops its own binding of the
argument, releasing the one counted reference it held. -/
def v8value_is_same_then_drop_arg (h : V8Heap) (self that : V8Value) :
    Except CefError Bool × V8Heap :=
  (V8Value.is_same h self that, h.release that.as_ptr)

/-- The instrumented lifecycle of the comparison argument in
V8Context::is_same: the argument is moved into the call, so after the call
returns the caller holds no binding of it and nothing further is dropped; the
world component of the call result is final. -/
def v8context_is_same_then_scope_end (w : V8CtxWorld) (self that : V8Context) :
    Except CefError Bool × V8CtxWorld :=
  V8Context.is_same w self that

/- The callback adapter model.  A native wrapper (a boxed trait object) is
paired with a freshly built operation table; RefCountedPtr::wrap allocates the
combined handle, embedding the wrapper so that a later foreign call through a
trampoline can recover it. -/

/-- Names of the native trampoline functions that can be installed in the
operation tables built by the two wrap implementations.  A populated table
slot holds a pointer to one of these functions. -/
inductive CFuncPtr
  | v8handler_execute
  | rph_on_web_kit_initialized
  | rph_c_on_browser_created
  | rph_on_context_created
deriving DecidableEq

/-- Modelled from the spec: the allocation RefCountedPtr::wrap(cef, self)
performs for a callback adapter: one handle holding the operation table and
the embedded native wrapper, with the reference count header initialised by
the smart pointer machinery. -/
structure CefHandle (T : Type) (W : Type) where
  table : T
  wrapper : W

/-- Modelled from the spec: RefCountedPtr::wrap(cef, self) embeds the boxed
native wrapper next to the operation table in a single allocation and hands
back the owning smart pointer to that handle. -/
def RefCountedPtr.wrap {T W : Type} (cef : T) (wrapper : W) : CefHandle T W :=
  ⟨cef, wrapper⟩

/-- Modelled from the spec: Wrapped::wrappable recovers the embedded native
wrapper from the handle pointer a trampoline receives; the embedding and the
recovery use the single layout of CefHandle, so recovery is exact for any
handle created by RefCountedPtr::wrap. -/
def Wrapped.wrappable {T W : Type} (this : CefHandle T W) : W := this.wrapper

/-- Outcome of a Rust call that may panic: either a normal return or an
unwinding panic carrying the panic message. -/
inductive PanicOr (α : Type)
  | panicked (msg : String)
  | returned (val : α)
deriving DecidableEq

/-- Result::unwrap from the Rust standard library: returns the success value
and panics on an error, carrying the error message. -/
def unwrapResult {α : Type} : Except String α → PanicOr α
  | .ok v => .returned v
  | .error e => .panicked e

/-- The V8HandlerCallbacks trait of v8_context.rs.  The boxed trait object is
modelled as a state of type S together with the method table; the receiver is
mut, so execute threads the state.  The method returns anyhow::Result of i32,
modelled as Except with the error message. -/
structure V8HandlerCallbacks (S : Type) where
  execute : S → String → V8Value → Nat → S × Except String Int

/-- The V8HandlerWrapper newtype of v8_context.rs around the boxed trait
object. -/
structure V8HandlerWrapper (S : Type) where
  state : S
  callbacks : V8HandlerCallbacks S

/-- V8HandlerWrapper::new boxes the delegate. -/
def V8HandlerWrapper.new {S : Type} (state : S) (delegate : V8HandlerCallbacks S) :
    V8HandlerWrapper S :=
  ⟨state, delegate⟩

/-- The cef_v8handler_t operation table: the reference count header (zeroed at
construction and filled in by the smart pointer machinery) and the nullable
execute slot. -/
structure cef_v8handler_t where
  base : Unit
  execute : Option CFuncPtr
deriving DecidableEq

/-- Wrappable::wrap for V8HandlerWrapper from v8_context.rs: builds the
operation table with the execute trampoline installed and allocates the
handle. -/
def V8HandlerWrapper.wrap {S : Type} (self : V8HandlerWrapper S) :
    CefHandle cef_v8handler_t (V8HandlerWrapper S) :=
  RefCountedPtr.wrap
    { base := (), execute := some CFuncPtr.v8handler_execute }
    self

/-- The V8HandlerWrapper::execute trampoline from v8_context.rs.  Arguments
mirror the C signature: the handle pointer, the function name, the receiver
object pointer, the argument count and argument array, and the retval and
exception out parameters (modelled by the values they point at).  The body
recovers the wrapper, converts name and object, invokes the trait method and
calls unwrap on its Result; the out parameters, the argument array and the
returned configuration are produced exactly as the source does (retval and
exception are never written).  The result carries the possibly panicking
integer return, the wrapper state after the trait call, and the final
contents of the two out parameter locations. -/
def V8HandlerWrapper.execute {S : Type} (this : CefHandle cef_v8handler_t (V8HandlerWrapper S))
    (name : CefString) (object : Ptr) (arguments_count : Nat) (_arguments : List Ptr)
    (retval : Ptr) (exception : CefString) :
    PanicOr Int × V8HandlerWrapper S × Ptr × CefString :=
  let this2 := Wrapped.wrappable this
  let name2 : String := (CefString.from_ptr_unchecked name).into
  let object2 : V8Value := V8Value.from_ptr_unchecked object
  let call := this2.callbacks.execute this2.state name2 object2 arguments_count
  (unwrapResult call.2, { this2 with state := call.1 }, retval, exception)

/- The render process handler adapter of render_process_handler.rs. -/

/-- The Browser collaborator wrapper (a ref counted facade consumed through
its narrow interface). -/
structure Browser where
  rc : RefCountedPtr
deriving DecidableEq

/-- Modelled from the spec: the unchecked constructor generated by
ref_counted_ptr for Browser (no NULL test). -/
def Browser.from_ptr_unchecked (p : Ptr) : Browser := ⟨⟨p⟩⟩

/-- The Frame collaborator wrapper. -/
structure Frame where
  rc : RefCountedPtr
deriving DecidableEq

/-- Modelled from the spec: the unchecked constructor generated by
ref_counted_ptr for Frame (no NULL test). -/
def Frame.from_ptr_unchecked (p : Ptr) : Frame := ⟨⟨p⟩⟩

/-- The DictionaryValue collaborator wrapper. -/
structure DictionaryValue where
  rc : RefCountedPtr
deriving DecidableEq

/-- Modelled from the spec: the checked from_ptr constructor fails closed,
constructing as absent when the raw pointer is NULL. -/
def DictionaryValue.from_ptr (p : Ptr) : Option DictionaryValue :=
  if p = 0 then none else some ⟨⟨p⟩⟩

/-- The RenderProcessHandlerCallbacks trait of render_process_handler.rs.
All four methods are mandatory (none is defaulted); the boxed trait object is
modelled as a state of type S with the method table, each method threading the
mut receiver state. -/
structure RenderProcessHandlerCallbacks (S : Type) where
  on_web_kit_initialized : S → S
  on_browser_created : S → Browser → Option DictionaryValue → S
  on_browser_destroyed : S → Browser → S
  on_context_created : S → Browser → Frame → V8Context → S

/-- The RenderProcessHandlerWrapper newtype of render_process_handler.rs
around the boxed trait object. -/
structure RenderProcessHandlerWrapper (S : Type) where
  state : S
  callbacks : RenderProcessHandlerCallbacks S

/-- RenderProcessHandlerWrapper::new boxes the delegate. -/
def RenderProcessHandlerWrapper.new {S : Type} (state : S)
    (delegate : RenderProcessHandlerCallbacks S) : RenderProcessHandlerWrapper S :=
  ⟨state, delegate⟩

/-- The cef_render_process_handler_t operation table with its nullable slots,
in the declared ABI order. -/
structure cef_render_process_handler_t where
  base : Unit
  on_web_kit_initialized : Option CFuncPtr
  on_browser_created : Option CFuncPtr
  on_browser_destroyed : Option CFuncPtr
  get_load_handler : Option CFuncPtr
  on_context_created : Option CFuncPtr
  on_context_released : Option CFuncPtr
  on_uncaught_exception : Option CFuncPtr
  on_focused_node_changed : Option CFuncPtr
  on_process_message_received : Option CFuncPtr
deriving DecidableEq

/-- The RenderProcessHandlerWrapper::c_on_browser_created trampoline from
render_process_handler.rs: recovers the wrapper, converts the browser pointer
(unchecked) and the optional extra info dictionary (checked), and invokes the
trait method; the updated wrapper models the mutation through the recovered
mut reference. -/
def RenderProcessHandlerWrapper.c_on_browser_created {S : Type}
    (this : CefHandle cef_render_process_handler_t (RenderProcessHandlerWrapper S))
    (browser : Ptr) (extra_info : Ptr) : RenderProcessHandlerWrapper S :=
  let this2 := Wrapped.wrappable this
  let browser2 := Browser.from_ptr_unchecked browser
  let extra_info2 := DictionaryValue.from_ptr extra_info
  { this2 with state := this2.callbacks.on_browser_created this2.state browser2 extra_info2 }

/-- The RenderProcessHandlerWrapper::on_web_kit_initialized trampoline from
render_process_handler.rs. -/
def RenderProcessHandlerWrapper.on_web_kit_initialized {S : Type}
    (this : CefHandle cef_render_process_handler_t (RenderProcessHandlerWrapper S)) :
    RenderProcessHandlerWrapper S :=
  let this2 := Wrapped.wrappable this
  { this2 with state := this2.callbacks.on_web_kit_initialized this2.state }

/-- The RenderProcessHandlerWrapper::on_context_created trampoline from
render_process_handler.rs. -/
def RenderProcessHandlerWrapper.on_context_created {S : Type}
    (this : CefHandle cef_render_process_handler_t (RenderProcessHandlerWrapper S))
    (browser : Ptr) (frame : Ptr) (context : Ptr) : RenderProcessHandlerWrapper S :=
  let this2 := Wrapped.wrappable this
  let browser2 := Browser.from_ptr_unchecked browser
  let frame2 := Frame.from_ptr_unchecked frame
  let context2 := V8Context.from_ptr_unchecked context
  { this2 with state := this2.callbacks.on_context_created this2.state browser2 frame2 context2 }

/-- Wrappable::wrap for RenderProcessHandlerWrapper from
render_process_handler.rs: builds the operation table exactly as the source
literal does (three trampolines installed, every other slot left None) and
allocates the handle. -/
def RenderProcessHandlerWrapper.wrap {S : Type} (self : RenderProcessHandlerWrapper S) :
    CefHandle cef_render_process_handler_t (RenderProcessHandlerWrapper S) :=
  RefCountedPtr.wrap
    { base := (),
      on_web_kit_initialized := some CFuncPtr.rph_on_web_kit_initialized,
      on_browser_created := some CFuncPtr.rph_c_on_browser_created,
      on_browser_destroyed := none,
      get_load_handler := none,
      on_context_created := some CFuncPtr.rph_on_context_created,
      on_context_released := none,
      on_uncaught_exception := none,
      on_focused_node_changed := none,
      on_process_message_received := none }
    self

/- Concrete instances used by closed theorems and witnesses. -/

/-- An empty foreign value heap. -/
def hEmpty : V8Heap := ⟨[]⟩

/-- A delegate whose execute method always fails with an error. -/
def errV8HandlerCallbacks : V8HandlerCallbacks Unit :=
  ⟨fun s _ _ _ => (s, .error "execution failed")⟩

/-- A handler wrapper around the always failing delegate. -/
def errV8HandlerWrapper : V8HandlerWrapper Unit :=
  V8HandlerWrapper.new () errV8HandlerCallbacks

/-- A value heap holding one engine created object whose property lookup
oracles answer NULL (the foreign failure result). -/
def hC4 : V8Heap := ⟨[freshEngineRec .object 0 ""]⟩

/-- A wrapper of the object in hC4. -/
def vC4 : V8Value := ⟨⟨1⟩⟩

/-- A value heap holding one record whose operation table has every slot
absent. -/
def hNo : V8Heap := ⟨[{ V8ValueRec.junk with refcount := 1, valid := true }]⟩

/-- A wrapper of the record in hNo. -/
def vNo : V8Value := ⟨⟨1⟩⟩

/-- A value heap with two engine created int values, for the is_same
lifecycle witness. -/
def hVal3 : V8Heap := ⟨[freshEngineRec .int 7 "", freshEngineRec .int 8 ""]⟩

/-- Wrapper of the first value in hVal3. -/
def sv3 : V8Value := ⟨⟨1⟩⟩

/-- Wrapper of the second value in hVal3. -/
def tv3 : V8Value := ⟨⟨2⟩⟩

/-- A context world with two context handles (reference counts 3 and 5, all
slots present) and an empty context stack. -/
def w3 : V8CtxWorld := ⟨[⟨3, ⟨true, true, true⟩⟩, ⟨5, ⟨true, true, true⟩⟩], 0⟩

/-- Wrapper of the first context in w3. -/
def sc3 : V8Context := ⟨⟨1⟩⟩

/-- Wrapper of the second context in w3. -/
def tc3 : V8Context := ⟨⟨2⟩⟩

/-- A context world with one fully populated context handle and an empty
context stack. -/
def w9 : V8CtxWorld := ⟨[⟨1, ⟨true, true, true⟩⟩], 0⟩

/-- Wrapper of the context in w9. -/
def c9v : V8Context := ⟨⟨1⟩⟩

/- Helper lemmas about the heap primitives. -/

/-- Looking up the freshly appended element of a list. -/
theorem getConcatLength {α : Type} (l : List α) (a : α) :
    (l ++ [a]).get? l.length = some a := by
  induction l with
  | nil => rfl
  | cons x t ih => simp only [List.cons_append, List.length_cons, List.get?_cons_succ]; exact ih

/-- Looking up the modified position of a list. -/
theorem get_modifyAt_self {α : Type} (f : α → α) :
    ∀ (l : List α) (n : Nat), (modifyAt f l n).get? n = (l.get? n).map f := by
  intro l
  induction l with
  | nil => intro n; cases n <;> rfl
  | cons x t ih =>
    intro n
    cases n with
    | zero => rfl
    | succ k => simpa [modifyAt] using ih k

/-- Releasing a handle decrements its reference count by one. -/
theorem refcountAt_release (h : V8Heap) (p : Ptr) :
    (h.release p).refcountAt p = h.refcountAt p - 1 := by
  unfold V8Heap.release V8Heap.refcountAt V8Heap.deref
  rw [get_modifyAt_self]
  cases h.cells.get? (p - 1) <;> simp [V8ValueRec.junk]

/-- Entering preserves the context heap and increments the stack depth when
the enter slot is present. -/
theorem enter_effect (w : V8CtxWorld) (c : V8Context)
    (hw : (w.deref c.as_ptr).slots.enter = true) :
    (V8Context.enter w c).2.heap = w.heap
    ∧ (V8Context.enter w c).2.stackDepth = w.stackDepth + 1 := by
  constructor <;> simp [V8Context.enter, cef_v8context_enter, hw]

/-- Exiting preserves the context heap and decrements the stack depth when
the exit slot is present and the stack is nonempty. -/
theorem exit_effect (w : V8CtxWorld) (c : V8Context)
    (hw : (w.deref c.as_ptr).slots.exit = true) (hne : w.stackDepth ≠ 0) :
    (V8Context.exit w c).2.heap = w.heap
    ∧ (V8Context.exit w c).2.stackDepth = w.stackDepth - 1 := by
  constructor <;> simp [V8Context.exit, cef_v8context_exit, hw, hne]

/-- Iterated entering preserves the context heap and adds n to the stack
depth. -/
theorem enterN_spec (c : V8Context) :
    ∀ (n : Nat) (w : V8CtxWorld), (w.deref c.as_ptr).slots.enter = true →
    (enterN n w c).heap = w.heap ∧ (enterN n w c).stackDepth = w.stackDepth + n := by
  intro n
  induction n with
  | zero => intro w _; exact ⟨rfl, rfl⟩
  | succ k ih =>
    intro w hw
    have he := enter_effect w c hw
    have hw2 : ((V8Context.enter w c).2.deref c.as_ptr).slots.enter = true := by
      simp only [V8CtxWorld.deref] at hw ⊢
      rw [he.1]; exact hw
    have hk := ih (V8Context.enter w c).2 hw2
    refine ⟨?_, ?_⟩
    · show (enterN k (V8Context.enter w c).2 c).heap = w.heap
      rw [hk.1, he.1]
    · show (enterN k (V8Context.enter w c).2 c).stackDepth = w.stackDepth + (k + 1)
      rw [hk.2, he.2]
      omega

/-- Iterated exiting preserves the context heap and subtracts n from the
stack depth as long as at least n enters are outstanding. -/
theorem exitN_spec (c : V8Context) :
    ∀ (n : Nat) (w : V8CtxWorld), (w.deref c.as_ptr).slots.exit = true →
    n ≤ w.stackDepth →
    (exitN n w c).heap = w.heap ∧ (exitN n w c).stackDepth = w.stackDepth - n := by
  intro n
  induction n with
  | zero => intro w _ _; exact ⟨rfl, rfl⟩
  | succ k ih =>
    intro w hw hn
    have hne : w.stackDepth ≠ 0 := by omega
    have he := exit_effect w c hw hne
    have hw2 : ((V8Context.exit w c).2.deref c.as_ptr).slots.exit = true := by
      simp only [V8CtxWorld.deref] at hw ⊢
      rw [he.1]; exact hw
    have hn2 : k ≤ (V8Context.exit w c).2.stackDepth := by
      rw [he.2]; omega
    have hk := ih (V8Context.exit w c).2 hw2 hn2
    refine ⟨?_, ?_⟩
    · show (exitN k (V8Context.exit w c).2 c).heap = w.heap
      rw [hk.1, he.1]
    · show (exitN k (V8Context.exit w c).2 c).stackDepth = w.stackDepth - (k + 1)
      rw [hk.2, he.2]
      omega

/- Claim theorems. -/

/-- C1.  The claim states that when the trait method of a V8HandlerCallbacks
implementation returns an error, the execute trampoline converts the failure
into the boolean false integer 0 and returns normally, never unwinding across
the C boundary.  The source instead calls unwrap on the Result, so the
trampoline panics across the boundary: at a delegate whose execute returns an
error, the trampoline outcome is a panic carrying that error, not the integer
0. -/
theorem c1_execute_trampoline_panics_on_error :
    (V8HandlerWrapper.execute (V8HandlerWrapper.wrap errV8HandlerWrapper)
        (CefString.new "f") 2 0 [] 0 (CefString.new "")).1
      = .panicked "execution failed"
    ∧ (V8HandlerWrapper.execute (V8HandlerWrapper.wrap errV8HandlerWrapper)
        (CefString.new "f") 2 0 [] 0 (CefString.new "")).1
      ≠ .returned 0 := by
  refine ⟨rfl, ?_⟩
  decide

/-- C2.  The claim states that a table entry built by wrap is a trampoline
exactly when the native trait implements the event, and in particular that
every mandatory method of RenderProcessHandlerCallbacks (on_web_kit_initialized,
on_browser_created, on_browser_destroyed, on_context_created) has a non null
entry.  The table the source builds installs trampolines for three of the
four mandatory methods but leaves on_browser_destroyed None even though the
trait declares it mandatory, so that callback can never be delivered. -/
theorem c2_wrap_table_slots (S : Type) (w : RenderProcessHandlerWrapper S) :
    ((RenderProcessHandlerWrapper.wrap w).table.on_web_kit_initialized
        = some CFuncPtr.rph_on_web_kit_initialized)
    ∧ ((RenderProcessHandlerWrapper.wrap w).table.on_browser_created
        = some CFuncPtr.rph_c_on_browser_created)
    ∧ ((RenderProcessHandlerWrapper.wrap w).table.on_context_created
        = some CFuncPtr.rph_on_context_created)
    ∧ ((RenderProcessHandlerWrapper.wrap w).table.on_browser_destroyed = none)
    ∧ ((RenderProcessHandlerWrapper.wrap w).table.get_load_handler = none)
    ∧ ((RenderProcessHandlerWrapper.wrap w).table.on_context_released = none)
    ∧ ((RenderProcessHandlerWrapper.wrap w).table.on_uncaught_exception = none)
    ∧ ((RenderProcessHandlerWrapper.wrap w).table.on_focused_node_changed = none)
    ∧ ((RenderProcessHandlerWrapper.wrap w).table.on_process_message_received = none) :=
  ⟨rfl, rfl, rfl, rfl, rfl, rfl, rfl, rfl, rfl⟩

/-- C3 (amended).  V8Value::is_same borrows its comparison argument through
as_ptr: the call leaves the heap untouched and the caller keeps its binding,
so over the full lifecycle (call, then the caller drops the argument) the
argument handle loses exactly its one counted reference.  V8Context::is_same
instead consumes its argument and passes it with into_raw, which suppresses
the drop decrement: over the full lifecycle the engine state is completely
unchanged and the reference the caller gave up is never released. -/
theorem c3_is_same_argument_lifecycle (h : V8Heap) (sv tv : V8Value)
    (w : V8CtxWorld) (sc tc : V8Context)
    (hslot : (w.deref sc.as_ptr).slots.is_same = true) :
    (v8value_is_same_then_drop_arg h sv tv).2.refcountAt tv.as_ptr
        = h.refcountAt tv.as_ptr - 1
    ∧ (v8context_is_same_then_scope_end w sc tc).2 = w := by
  constructor
  · show (h.release tv.as_ptr).refcountAt tv.as_ptr = h.refcountAt tv.as_ptr - 1
    exact refcountAt_release h tv.as_ptr
  · simp [v8context_is_same_then_scope_end, V8Context.is_same, hslot]

/-- Witness for C3: the lifecycle statement applied at concrete heaps and
handles, the slot presence hypothesis discharged by evaluation. -/
theorem c3_is_same_argument_lifecycle_witness :
    ((w3.deref sc3.as_ptr).slots.is_same = true)
    ∧ ((v8value_is_same_then_drop_arg hVal3 sv3 tv3).2.refcountAt tv3.as_ptr
          = hVal3.refcountAt tv3.as_ptr - 1
      ∧ (v8context_is_same_then_scope_end w3 sc3 tc3).2 = w3) :=
  ⟨rfl, c3_is_same_argument_lifecycle hVal3 sv3 tv3 w3 sc3 tc3 rfl⟩

/-- Counterexample for C3 as stated.  The claim promises that the comparison
argument of V8Context::is_same is only borrowed, with no decrement suppressed:
then the argument lifecycle (the call plus the end of the argument binding)
would release exactly the one reference the caller held, leaving count 4 here.
Evaluating the code at a context handle with reference count 5 shows the count
is still 5 after the full lifecycle: into_raw suppressed the release. -/
theorem c3_v8context_is_same_not_borrowing :
    ¬ ((v8context_is_same_then_scope_end w3 sc3 tc3).2.refcountAt tc3.as_ptr
        = w3.refcountAt tc3.as_ptr - 1) := by
  decide

/-- C4.  The claim states that get_value_by_key and get_value_by_index report
failure when the foreign operation returns NULL.  Evaluating the code on a
handle whose foreign lookup returns NULL shows both accessors instead return
Ok wrapping the NULL pointer (from_ptr_unchecked performs no NULL test), so a
failed lookup is indistinguishable from a valid value. -/
theorem c4_get_value_null_wrapped_not_error :
    V8Value.get_value_by_key hC4 vC4 "missing" = .ok (V8Value.from_ptr_unchecked 0)
    ∧ V8Value.get_value_by_index hC4 vC4 3 = .ok (V8Value.from_ptr_unchecked 0) :=
  ⟨rfl, rfl⟩

/-- C5.  Every facade accessor invoked on a handle whose operation table slot
for that accessor is absent returns the typed missing slot error naming the
slot, and in particular never the executed and returned false result. -/
theorem c5_missing_slot_reported_as_error (h : V8Heap) (v : V8Value) (op : V8ValueOp)
    (key : String) (index : Int) (arg : V8Value) (rethrow : Bool)
    (hs : op.slotOf ((h.deref v.as_ptr).slots) = false) :
    V8Value.callOp h v op key index arg rethrow = .error (.missingSlot op.opName)
    ∧ V8Value.callOp h v op key index arg rethrow ≠ .ok (.b false) := by
  have h1 : V8Value.callOp h v op key index arg rethrow
      = .error (.missingSlot op.opName) := by
    cases op <;>
      simp_all [V8Value.callOp, V8ValueOp.slotOf, V8ValueOp.opName, tryC,
        V8Value.is_valid, V8Value.is_undefined, V8Value.is_null, V8Value.is_bool,
        V8Value.is_int, V8Value.is_uint, V8Value.is_double, V8Value.is_date,
        V8Value.is_string, V8Value.is_object, V8Value.is_array, V8Value.is_array_buffer,
        V8Value.is_function, V8Value.is_promise, V8Value.is_same,
        V8Value.get_bool_value, V8Value.get_int_value, V8Value.get_uint_value,
        V8Value.get_double_value, V8Value.get_string_value, V8Value.is_user_created,
        V8Value.has_exception, V8Value.clear_exception, V8Value.will_rethrow_exceptions,
        V8Value.set_rethrow_exceptions, V8Value.has_value_by_key, V8Value.has_value_by_index,
        V8Value.delete_value_by_key, V8Value.delete_value_by_index,
        V8Value.get_value_by_key, V8Value.get_value_by_index,
        V8Value.set_value_by_key, V8Value.set_value_by_index, Except.map]
  refine ⟨h1, ?_⟩
  rw [h1]
  simp

/-- Witness for C5: the accessor family statement applied at a concrete
handle with an empty operation table and the is_int accessor, the hypothesis
discharged by evaluation. -/
theorem c5_missing_slot_reported_as_error_witness :
    (V8ValueOp.slotOf .is_int ((hNo.deref vNo.as_ptr).slots) = false)
    ∧ V8Value.callOp hNo vNo .is_int "k" 0 vNo false
        = .error (.missingSlot "is_int") :=
  ⟨rfl, (c5_missing_slot_reported_as_error hNo vNo .is_int "k" 0 vNo false rfl).1⟩

/-- C6.  A trampoline invoked with the handle produced by wrapping an adapter
recovers exactly the native trait object that was wrapped: the recovery of
the embedded wrapper is the identity for both adapter kinds, and consequently
each trampoline dispatches to the method of the originally wrapped delegate
on the originally wrapped state. -/
theorem c6_wrappable_roundtrip :
    (∀ (S : Type) (w : V8HandlerWrapper S),
        Wrapped.wrappable (V8HandlerWrapper.wrap w) = w)
    ∧ (∀ (S : Type) (w : RenderProcessHandlerWrapper S),
        Wrapped.wrappable (RenderProcessHandlerWrapper.wrap w) = w)
    ∧ (∀ (S : Type) (w : V8HandlerWrapper S) (name : CefString) (object : Ptr)
        (n : Nat) (args : List Ptr) (rv : Ptr) (ex : CefString),
        V8HandlerWrapper.execute (V8HandlerWrapper.wrap w) name object n args rv ex
          = (unwrapResult (w.callbacks.execute w.state
                (CefString.from_ptr_unchecked name).into
                (V8Value.from_ptr_unchecked object) n).2,
             { w with state := (w.callbacks.execute w.state
                (CefString.from_ptr_unchecked name).into
                (V8Value.from_ptr_unchecked object) n).1 }, rv, ex))
    ∧ (∀ (S : Type) (w : RenderProcessHandlerWrapper S),
        RenderProcessHandlerWrapper.on_web_kit_initialized
            (RenderProcessHandlerWrapper.wrap w)
          = { w with state := w.callbacks.on_web_kit_initialized w.state })
    ∧ (∀ (S : Type) (w : RenderProcessHandlerWrapper S) (b e : Ptr),
        RenderProcessHandlerWrapper.c_on_browser_created
            (RenderProcessHandlerWrapper.wrap w) b e
          = { w with state := (w.callbacks.on_browser_created w.state
                (Browser.from_ptr_unchecked b) (DictionaryValue.from_ptr e)) })
    ∧ (∀ (S : Type) (w : RenderProcessHandlerWrapper S) (b f c : Ptr),
        RenderProcessHandlerWrapper.on_context_created
            (RenderProcessHandlerWrapper.wrap w) b f c
          = { w with state := (w.callbacks.on_context_created w.state
                (Browser.from_ptr_unchecked b) (Frame.from_ptr_unchecked f)
                (V8Context.from_ptr_unchecked c)) }) :=
  ⟨fun _ _ => rfl, fun _ _ => rfl, fun _ _ _ _ _ _ _ _ => rfl,
   fun _ _ => rfl, fun _ _ _ _ => rfl, fun _ _ _ _ _ => rfl⟩

/-- C7.  For every i32 payload, creating an int value and reading it back
returns the payload, the is_int predicate answers true and the is_string and
is_bool predicates answer false. -/
theorem c7_create_int_roundtrip (h : V8Heap) (i : Int)
    (hlo : -(2 ^ 31) ≤ i) (hhi : i < 2 ^ 31) :
    V8Value.get_int_value (V8Value.create_int h i).1 (V8Value.create_int h i).2 = .ok i
    ∧ V8Value.is_int (V8Value.create_int h i).1 (V8Value.create_int h i).2 = .ok true
    ∧ V8Value.is_string (V8Value.create_int h i).1 (V8Value.create_int h i).2 = .ok false
    ∧ V8Value.is_bool (V8Value.create_int h i).1 (V8Value.create_int h i).2 = .ok false := by
  have hd : (V8Value.create_int h i).1.deref ((V8Value.create_int h i).2.as_ptr)
      = freshEngineRec .int i "" := by
    simp [V8Value.create_int, cef_v8value_create_int, V8Heap.alloc, V8Heap.deref,
      V8Value.from_ptr_unchecked, V8Value.as_ptr, RefCountedPtr.as_ptr, getConcatLength]
  refine ⟨?_, ?_, ?_, ?_⟩ <;>
    simp [V8Value.get_int_value, V8Value.is_int, V8Value.is_string, V8Value.is_bool,
      tryC, hd, cef_v8value_get_int_value, cef_v8value_has_tag, freshEngineRec,
      V8ValueSlots.const]

/-- Witness for C7: the round trip applied at the empty heap and payload 5,
the range hypotheses discharged by evaluation. -/
theorem c7_create_int_roundtrip_witness :
    ((-(2 ^ 31) : Int) ≤ 5 ∧ (5 : Int) < 2 ^ 31)
    ∧ (V8Value.get_int_value (V8Value.create_int hEmpty 5).1
          (V8Value.create_int hEmpty 5).2 = .ok 5
      ∧ V8Value.is_int (V8Value.create_int hEmpty 5).1
          (V8Value.create_int hEmpty 5).2 = .ok true
      ∧ V8Value.is_string (V8Value.create_int hEmpty 5).1
          (V8Value.create_int hEmpty 5).2 = .ok false
      ∧ V8Value.is_bool (V8Value.create_int hEmpty 5).1
          (V8Value.create_int hEmpty 5).2 = .ok false) :=
  ⟨⟨by decide, by decide⟩, c7_create_int_roundtrip hEmpty 5 (by decide) (by decide)⟩

/-- C8.  For every native string, creating a string value from its marshalled
form and reading it back through the marshalling collaborator returns the
same string. -/
theorem c8_create_string_roundtrip (h : V8Heap) (s : String) :
    V8Value.get_string_value (V8Value.create_string h (CefString.new s)).1
      (V8Value.create_string h (CefString.new s)).2 = .ok s := by
  have hd : (V8Value.create_string h (CefString.new s)).1.deref
        ((V8Value.create_string h (CefString.new s)).2.as_ptr)
      = freshEngineRec .string 0 s := by
    simp [V8Value.create_string, cef_v8value_create_string, V8Heap.alloc, V8Heap.deref,
      V8Value.from_ptr_unchecked, V8Value.as_ptr, RefCountedPtr.as_ptr,
      CefString.new, CefString.as_ptr, getConcatLength]
  simp [V8Value.get_string_value, tryC, hd, cef_v8value_get_string_value,
    freshEngineRec, V8ValueSlots.const, CefString.from_userfree_ptr_unchecked,
    CefString.into]

/-- C9.  With the enter and exit slots present, entering n times and then
exiting n times from an empty context stack restores the stack depth to zero,
and exiting with no outstanding enter reports the foreign failure result 0
instead of succeeding. -/
theorem c9_enter_exit_stack_discipline (w : V8CtxWorld) (c : V8Context) (n : Nat)
    (he : (w.deref c.as_ptr).slots.enter = true)
    (hx : (w.deref c.as_ptr).slots.exit = true)
    (hd : w.stackDepth = 0) :
    (exitN n (enterN n w c) c).stackDepth = 0
    ∧ V8Context.exit w c = (.ok 0, w) := by
  have hen := enterN_spec c n w he
  have hx2 : ((enterN n w c).deref c.as_ptr).slots.exit = true := by
    simp only [V8CtxWorld.deref] at hx ⊢
    rw [hen.1]; exact hx
  have hle : n ≤ (enterN n w c).stackDepth := by rw [hen.2]; omega
  have hex := exitN_spec c n (enterN n w c) hx2 hle
  refine ⟨?_, ?_⟩
  · rw [hex.2, hen.2, hd]
    omega
  · simp [V8Context.exit, cef_v8context_exit, hx, hd]

/-- Witness for C9: the stack discipline applied at a concrete world with an
empty stack and n equal to 2, the slot and depth hypotheses discharged by
evaluation. -/
theorem c9_enter_exit_stack_discipline_witness :
    ((w9.deref c9v.as_ptr).slots.enter = true
      ∧ (w9.deref c9v.as_ptr).slots.exit = true
      ∧ w9.stackDepth = 0)
    ∧ ((exitN 2 (enterN 2 w9 c9v) c9v).stackDepth = 0
      ∧ V8Context.exit w9 c9v = (.ok 0, w9)) :=
  ⟨⟨rfl, rfl, rfl⟩, c9_enter_exit_stack_discipline w9 c9v 2 rfl rfl rfl⟩

/-- C10.  The execute trampoline never writes through the retval and
exception out parameters: whatever they held before the call is unchanged
after it, for every delegate, so only the integer result crosses back. -/
theorem c10_execute_out_params_untouched (S : Type)
    (this : CefHandle cef_v8handler_t (V8HandlerWrapper S)) (name : CefString)
    (object : Ptr) (n : Nat) (args : List Ptr) (retval : Ptr) (exception : CefString) :
    (V8HandlerWrapper.execute this name object n args retval exception).2.2.1 = retval
    ∧ (V8HandlerWrapper.execute this name object n args retval exception).2.2.2 = exception :=
  ⟨rfl, rfl⟩

end CefUI
